import Mathlib

/-!
Verification of the SteelSeries Apex OLED driver (`steel-series-apex`).

The development shallowly embeds the Rust sources:
  * `src/keyboard.rs` — frame buffer, `draw_pixel`, `flush_screen`,
    `send_image`, `send`, device enumeration, keyboard constants;
  * `src/manager.rs` — the manager worker loop, its hotplug watcher and
    callback registration;
  * `src/main.rs` — the older standalone hotplug watcher and its
    callback registration.

Machine integers are modelled as `Nat` (all quantities stay far below any
overflow boundary on the in-range paths), pixel coordinates as `Int`
(they are `i32` in the source), the `BitVec<Msb0, u8>` frame buffer as
`List Bool`, and fallible operations as `Except`.  External outcomes
(USB writes, channel receives, redraw attempts) are passed in as explicit
parameters so that the control flow of the source can be proved about.
-/

/-! ### Frame buffer and pixel drawing (`src/keyboard.rs`) -/

/-- Monochrome pixel color, mirroring `embedded_graphics::pixelcolor::BinaryColor`. -/
inductive BinColor
  | on
  | off
deriving DecidableEq, Repr

/-- The bit written for a color: the `match color` arm of `draw_pixel`
(`BinaryColor::On => true, BinaryColor::Off => false`). -/
def BinColor.bit : BinColor → Bool
  | .on => true
  | .off => false

/-- Mutable state of a `KeyboardDevice`: the `frame_buffer: BitVec<Msb0, u8>`
field (one `Bool` per pixel, row-major) and the `screen_dirty: bool` flag. -/
structure DeviceState where
  frameBuffer : List Bool
  screenDirty : Bool
deriving DecidableEq, Repr

/-- Shallow embedding of `KeyboardDevice::draw_pixel` (src/keyboard.rs:203-234):
negative coordinates return `Ok` untouched; coordinates at or beyond the
dimensions return `Ok` untouched; otherwise the bit at linear index
`x + y * width` is set to the color's bit, and an out-of-bounds index on the
underlying buffer is the `anyhow!("Bug: ...")` error path.  The function
never assigns `screen_dirty`. -/
def draw_pixel (width height : Nat) (s : DeviceState) (x y : Int) (color : BinColor) :
    Except String DeviceState :=
  if x < 0 ∨ y < 0 then .ok s
  else
    let xn := x.toNat
    let yn := y.toNat
    if xn ≥ width ∨ yn ≥ height then .ok s
    else
      let p := xn + yn * width
      if p < s.frameBuffer.length then
        .ok { s with frameBuffer := s.frameBuffer.set p color.bit }
      else
        .error "Bug: Unexpected index out of bounds"

/-- Mirror of `KeyboardDevice::screen_area` (src/keyboard.rs:64-66). -/
def screen_area (width height : Nat) : Nat :=
  width * height

/-- State built by `KeyboardDevice::new` (src/keyboard.rs:53-61): the frame
buffer is resized to `screen_area` bits, all `false`, and `screen_dirty`
starts `true`. -/
def KeyboardDevice_fresh (width height : Nat) : DeviceState :=
  { frameBuffer := List.replicate (screen_area width height) false
    screenDirty := true }

/-- Shallow embedding of `KeyboardDevice::flush_screen` (src/keyboard.rs:116-122).
The outcome of the underlying `send_image` transfer is the `sendResult`
parameter.  The result records the state after the call, the image handed to
`send_image` (if the transfer was attempted at all), and the returned
`Result`: when the buffer is dirty the image is sent, and only on success is
`screen_dirty` cleared; when it is clean nothing is attempted. -/
def flush_screen (sendResult : Except String Unit) (s : DeviceState) :
    DeviceState × Option (List Bool) × Except String Unit :=
  if s.screenDirty then
    match sendResult with
    | .error e => (s, some s.frameBuffer, .error e)
    | .ok _ => ({ s with screenDirty := false }, some s.frameBuffer, .ok ())
  else
    (s, none, .ok ())

/-! ### Bit packing and the image payload (`send_image`, src/keyboard.rs:124-132)

`send_image` builds a `BitVec<Msb0, u8>`: eight bits storing the command tag
`0x65`, then the frame-buffer bits, and transmits `as_raw_slice()` — the bit
sequence chunked into bytes most-significant-bit first, the final byte's
unused low-order bits being zero. -/

/-- Value of a list of bits read most-significant-bit first. -/
def bitsToNat (bs : List Bool) : Nat :=
  bs.foldl (fun a b => 2 * a + (if b then 1 else 0)) 0

/-- The low `n` bits of `v` as a list, most-significant-bit first. -/
def natBits : Nat → Nat → List Bool
  | 0, _ => []
  | n + 1, v => natBits n (v / 2) ++ [decide (v % 2 = 1)]

/-- A final partial chunk of a `BitVec<Msb0, u8>` raw slice: the bits occupy
the high end of the byte and the unused low-order positions are zero. -/
def fillByte (c : List Bool) : List Bool :=
  c ++ List.replicate (8 - c.length) false

/-- Raw byte slice of a `BitVec<Msb0, u8>`: chunks of eight bits become bytes
most-significant-bit first; a final short chunk is padded per `fillByte`. -/
def packBits : List Bool → List Nat
  | [] => []
  | b0 :: b1 :: b2 :: b3 :: b4 :: b5 :: b6 :: b7 :: rest =>
      bitsToNat [b0, b1, b2, b3, b4, b5, b6, b7] :: packBits rest
  | bs => [bitsToNat (fillByte bs)]

/-- Reading a byte sequence back into its bits, most-significant-bit first. -/
def unpackBits : List Nat → List Bool
  | [] => []
  | b :: rest => natBits 8 b ++ unpackBits rest

/-- Payload built by `KeyboardDevice::send_image` (src/keyboard.rs:124-132):
eight bits storing `0x65` followed by the image bits, packed into raw bytes. -/
def encodeImage (imageData : List Bool) : List Nat :=
  packBits (natBits 8 0x65 ++ imageData)

/-- A final short chunk padded with zeros on the HIGH end of the byte, the
way the spec sentence "final byte zero-padded on the high end" reads. -/
def fillByteHigh (c : List Bool) : List Bool :=
  List.replicate (8 - c.length) false ++ c

/-- Modelled from the spec: packing whose final byte is zero-padded on the
high end, for comparison with the source's `packBits`. -/
def packBitsHighPad : List Bool → List Nat
  | [] => []
  | b0 :: b1 :: b2 :: b3 :: b4 :: b5 :: b6 :: b7 :: rest =>
      bitsToNat [b0, b1, b2, b3, b4, b5, b6, b7] :: packBitsHighPad rest
  | bs => [bitsToNat (fillByteHigh bs)]

/-- Modelled from the spec: the payload as the spec's encoding sentence
describes it, with the final byte zero-padded on the high end. -/
def encodeImageHighPad (imageData : List Bool) : List Nat :=
  packBitsHighPad (natBits 8 0x65 ++ imageData)

/-! ### Helper lemmas about bit packing -/

theorem bitsToNat_snoc (a : Nat) (bs : List Bool) (b : Bool) :
    (bs ++ [b]).foldl (fun a b => 2 * a + (if b then 1 else 0)) a =
      2 * bs.foldl (fun a b => 2 * a + (if b then 1 else 0)) a + (if b then 1 else 0) := by
  rw [List.foldl_append]
  rfl

theorem natBits_bitsToNat (bs : List Bool) : natBits bs.length (bitsToNat bs) = bs := by
  induction bs using List.reverseRecOn with
  | nil => rfl
  | append_singleton ys b ih =>
      have hlen : (ys ++ [b]).length = ys.length + 1 := by simp
      rw [hlen]
      unfold bitsToNat at *
      rw [bitsToNat_snoc]
      set t := ys.foldl (fun a b => 2 * a + (if b then 1 else 0)) 0 with ht
      show natBits ys.length ((2 * t + (if b then 1 else 0)) / 2) ++
          [decide ((2 * t + (if b then 1 else 0)) % 2 = 1)] = ys ++ [b]
      have h2 : (2 * t + (if b then 1 else 0)) / 2 = t := by
        cases b <;> simp <;> omega
      have h3 : (2 * t + (if b then 1 else 0)) % 2 = (if b then 1 else 0) := by
        cases b <;> simp <;> omega
      rw [h2, h3, ih]
      cases b <;> simp

theorem natBits_length (n v : Nat) : (natBits n v).length = n := by
  induction n generalizing v with
  | zero => rfl
  | succ n ih => simp [natBits, ih]

theorem natBits_fillByte (c : List Bool) (hc : c.length ≤ 8) :
    natBits 8 (bitsToNat (fillByte c)) = fillByte c := by
  have h : (fillByte c).length = 8 := by
    simp [fillByte]
    omega
  conv_lhs => rw [← h]
  exact natBits_bitsToNat (fillByte c)

theorem unpackBits_packBits (bs : List Bool) :
    unpackBits (packBits bs) = bs ++ List.replicate ((8 - bs.length % 8) % 8) false := by
  induction bs using packBits.induct with
  | case1 => rfl
  | case2 b0 b1 b2 b3 b4 b5 b6 b7 rest ih =>
      show natBits 8 (bitsToNat [b0, b1, b2, b3, b4, b5, b6, b7]) ++
          unpackBits (packBits rest) = _
      have h8 : natBits 8 (bitsToNat [b0, b1, b2, b3, b4, b5, b6, b7]) =
          [b0, b1, b2, b3, b4, b5, b6, b7] := natBits_bitsToNat [b0, b1, b2, b3, b4, b5, b6, b7]
      rw [h8, ih]
      simp
      omega
  | case3 bs h1 h2 =>
      rcases bs with _ | ⟨b0, _ | ⟨b1, _ | ⟨b2, _ | ⟨b3, _ | ⟨b4, _ | ⟨b5, _ | ⟨b6, _ | ⟨b7, rest⟩⟩⟩⟩⟩⟩⟩⟩
      · exact absurd rfl h1
      · rw [show unpackBits (packBits [b0]) =
            natBits 8 (bitsToNat (fillByte [b0])) ++ [] from rfl,
          natBits_fillByte _ (by simp)]
        simp [fillByte]
      · rw [show unpackBits (packBits [b0, b1]) =
            natBits 8 (bitsToNat (fillByte [b0, b1])) ++ [] from rfl,
          natBits_fillByte _ (by simp)]
        simp [fillByte]
      · rw [show unpackBits (packBits [b0, b1, b2]) =
            natBits 8 (bitsToNat (fillByte [b0, b1, b2])) ++ [] from rfl,
          natBits_fillByte _ (by simp)]
        simp [fillByte]
      · rw [show unpackBits (packBits [b0, b1, b2, b3]) =
            natBits 8 (bitsToNat (fillByte [b0, b1, b2, b3])) ++ [] from rfl,
          natBits_fillByte _ (by simp)]
        simp [fillByte]
      · rw [show unpackBits (packBits [b0, b1, b2, b3, b4]) =
            natBits 8 (bitsToNat (fillByte [b0, b1, b2, b3, b4])) ++ [] from rfl,
          natBits_fillByte _ (by simp)]
        simp [fillByte]
      · rw [show unpackBits (packBits [b0, b1, b2, b3, b4, b5]) =
            natBits 8 (bitsToNat (fillByte [b0, b1, b2, b3, b4, b5])) ++ [] from rfl,
          natBits_fillByte _ (by simp)]
        simp [fillByte]
      · rw [show unpackBits (packBits [b0, b1, b2, b3, b4, b5, b6]) =
            natBits 8 (bitsToNat (fillByte [b0, b1, b2, b3, b4, b5, b6])) ++ [] from rfl,
          natBits_fillByte _ (by simp)]
        simp [fillByte]
      · exact (h2 b0 b1 b2 b3 b4 b5 b6 b7 rest rfl).elim

theorem unpackBits_length (l : List Nat) : (unpackBits l).length = 8 * l.length := by
  induction l with
  | nil => rfl
  | cons b rest ih =>
      show (natBits 8 b ++ unpackBits rest).length = _
      simp [natBits_length, ih]
      ring

theorem packBits_length (bs : List Bool) :
    (packBits bs).length = (bs.length + 7) / 8 := by
  have h := congrArg List.length (unpackBits_packBits bs)
  rw [unpackBits_length] at h
  simp at h
  omega

theorem packBits_cmd_cons (bs : List Bool) :
    packBits (natBits 8 0x65 ++ bs) = 0x65 :: packBits bs := rfl

/-! ### USB control transfers (`KeyboardDevice::send`, src/keyboard.rs:68-114) -/

/-- Transfer direction, mirroring `rusb::Direction`. -/
inductive UsbDirection
  | out
  | inn
deriving DecidableEq, Repr

/-- Bits contributed by the direction to the request-type byte. -/
def UsbDirection.bits : UsbDirection → Nat
  | .out => 0x00
  | .inn => 0x80

/-- Request kind, mirroring `rusb::RequestType`. -/
inductive UsbRequestKind
  | standard
  | classKind
  | vendor
  | reserved
deriving DecidableEq, Repr

/-- Bits contributed by the request kind (before the shift by 5). -/
def UsbRequestKind.bits : UsbRequestKind → Nat
  | .standard => 0x00
  | .classKind => 0x01
  | .vendor => 0x02
  | .reserved => 0x03

/-- Recipient, mirroring `rusb::Recipient`. -/
inductive UsbRecipient
  | device
  | interface
  | endpoint
  | other
deriving DecidableEq, Repr

/-- Bits contributed by the recipient to the request-type byte. -/
def UsbRecipient.bits : UsbRecipient → Nat
  | .device => 0x00
  | .interface => 0x01
  | .endpoint => 0x02
  | .other => 0x03

/-- Mirror of `rusb::request_type`: the bmRequestType byte assembled from
direction, kind and recipient. -/
def request_type (d : UsbDirection) (k : UsbRequestKind) (r : UsbRecipient) : Nat :=
  d.bits ||| (k.bits <<< 5) ||| r.bits

/-- Mirror of the `KeyboardCommand` enum (src/keyboard.rs:145-154). -/
inductive KeyboardCommand
  | Colors
  | Config (index : Nat)
  | Oled
deriving DecidableEq, Repr

/-- Mirror of `KeyboardCommand::value` (src/keyboard.rs:157-163). -/
def KeyboardCommand.value : KeyboardCommand → Nat
  | .Colors => 0x300
  | .Config _ => 0x200
  | .Oled => 0x300

/-- Mirror of `KeyboardCommand::index` (src/keyboard.rs:165-171). -/
def KeyboardCommand.index : KeyboardCommand → Nat
  | .Colors => 0x01
  | .Config i => i
  | .Oled => 0x01

/-- One issued USB control transfer, with the fields `write_control` receives. -/
structure ControlTransfer where
  requestType : Nat
  request : Nat
  value : Nat
  index : Nat
  payload : List Nat
  timeoutSecs : Nat
deriving DecidableEq, Repr

/-- Shallow embedding of `KeyboardDevice::send` (src/keyboard.rs:68-114) from
the point where the control transfer is issued.  `writeResult` is the outcome
of `handle.write_control` (`Ok` carrying the reported byte count, or a USB
error).  The first component lists the control transfers issued — always
exactly the one transfer, built with `request_type(Out, Class, Interface)`,
request `0x09`, the command's value and index, the payload, and the 5-second
timeout.  The second component is the returned `Result`:
`remaining_bytes = buf.len().saturating_sub(bytes_written)` must be zero,
otherwise the `ensure!` fails with "entire request not written". -/
def send (cmd : KeyboardCommand) (buf : List Nat) (writeResult : Except String Nat) :
    List ControlTransfer × Except String Unit :=
  let t : ControlTransfer :=
    { requestType := request_type .out .classKind .interface
      request := 0x09
      value := cmd.value
      index := cmd.index
      payload := buf
      timeoutSecs := 5 }
  match writeResult with
  | .error e => ([t], .error e)
  | .ok written =>
      ([t], if buf.length - written = 0 then .ok () else .error "entire request not written")

/-! ### Device matching (`KeyboardDevice::new`, src/keyboard.rs:28-51) -/

/-- The fields of a USB device descriptor the matcher reads. -/
structure DeviceDescriptor where
  vendor_id : Nat
  product_id : Nat
deriving DecidableEq, Repr

deriving instance DecidableEq for Except

/-- An enumerated USB device: an identity and the outcome of reading its
descriptor (`dev.device_descriptor()` can fail per device). -/
structure UsbDevice where
  devId : Nat
  descriptor : Except String DeviceDescriptor
deriving DecidableEq, Repr

/-- Whether the enumeration keeps a device: its descriptor must read
successfully and report the target product and vendor identifiers
(`desc.product_id() == K::PRODUCT_ID && desc.vendor_id() == K::VENDOR_ID`).
A descriptor read error is logged as a warning and the device is skipped. -/
def selectedBy (vid pid : Nat) (d : UsbDevice) : Bool :=
  match d.descriptor with
  | .error _ => false
  | .ok desc => desc.product_id = pid && desc.vendor_id = vid

/-- The `map`/`filter_map`/`next` pipeline of `KeyboardDevice::new`
(src/keyboard.rs:29-50): the first device kept by `selectedBy`. -/
def findKeyboard (vid pid : Nat) : List UsbDevice → Option UsbDevice
  | [] => none
  | d :: rest => if selectedBy vid pid d then some d else findKeyboard vid pid rest

/-- Errors `KeyboardDevice::new` can resolve with: the device-list read
failing (a transport error with context "Getting list of devices"), or the
`anyhow!("Could not find keyboard")` not-found error. -/
inductive ResolveError
  | listDevicesError (msg : String)
  | notFound
deriving DecidableEq, Repr

/-- Device resolution in `KeyboardDevice::new` (src/keyboard.rs:28-51):
`context.devices()` may itself fail; otherwise the first matching device is
selected, and an empty search result is the not-found error. -/
def KeyboardDevice_find (vid pid : Nat) (devList : Except String (List UsbDevice)) :
    Except ResolveError UsbDevice :=
  match devList with
  | .error e => .error (.listDevicesError e)
  | .ok ds =>
      match findKeyboard vid pid ds with
      | some d => .ok d
      | none => .error .notFound

/-! ### Manager worker loop (`src/manager.rs`) -/

/-- Mirror of the `Message` enum (src/manager.rs:26-31). -/
inductive Message
  | DeviceArrived
  | DeviceLeft
  | RefreshScreen
deriving DecidableEq, Repr

/-- Observable actions of the worker thread: a redraw attempt (numbered so
that relative order is visible), the error log emitted by `handle_message`
when a redraw fails, and the error log plus `break` on a channel receive
failure. -/
inductive WorkerAction
  | redraw (attempt : Nat)
  | logHandleError
  | logRecvErrorAndBreak
deriving DecidableEq, Repr

/-- The `match message` of `KeyboardManager::handle_message`
(src/manager.rs:76-80): whether the arm calls `draw_screen`, and the `Result`
the arm produces (`DeviceLeft` yields `Ok(())` without drawing). -/
def message_result (drawResult : Except String Unit) :
    Message → Bool × Except String Unit
  | .DeviceArrived => (true, drawResult)
  | .DeviceLeft => (false, .ok ())
  | .RefreshScreen => (true, drawResult)

/-- Shallow embedding of `KeyboardManager::handle_message`
(src/manager.rs:73-84): the actions performed for one message, numbering the
redraw attempt `k`, and whether a redraw attempt was consumed.  An `Err`
result is logged (`tracing::error!`) and swallowed. -/
def handle_message (drawResult : Except String Unit) (k : Nat) (m : Message) :
    List WorkerAction × Bool :=
  let dr := message_result drawResult m
  ((if dr.1 then [WorkerAction.redraw k] else []) ++
      (match dr.2 with
        | .error _ => [WorkerAction.logHandleError]
        | .ok _ => []),
    dr.1)

/-- Shallow embedding of the worker loop spawned by `KeyboardManager::spawn`
(src/manager.rs:40-47) over a finite prefix of channel-receive outcomes.
Each successful receive is handled (and the loop continues whatever the
handling result); the first receive error logs and breaks; redraw outcomes
are supplied by `draws`, indexed by attempt number starting at `k`. -/
def worker_loop : List (Except String Message) → (Nat → Except String Unit) → Nat →
    List WorkerAction
  | [], _, _ => []
  | .error _ :: _, _, _ => [WorkerAction.logRecvErrorAndBreak]
  | .ok m :: rest, draws, k =>
      let h := handle_message (draws k) k m
      h.1 ++ worker_loop rest draws (if h.2 then k + 1 else k)

/-- The redraw attempts in a worker trace, in order. -/
def redraws (l : List WorkerAction) : List Nat :=
  l.filterMap fun a =>
    match a with
    | .redraw k => some k
    | _ => none

/-! ### Hotplug watchers and callback registration

Two `Hotplug` implementations exist in the repository: the channel-posting
watcher of `src/manager.rs` (lines 129-145) and the older watcher of
`src/main.rs` (lines 72-106) that performs the device work inline. -/

/-- Effects a hotplug callback can perform, at the granularity the claims
discuss: log lines, posting a message on the channel, and the three kinds of
device work (resolving/opening a device, drawing to it, flushing — the last
one issuing a USB control transfer). -/
inductive CallbackEffect
  | log
  | channelSend (m : Message)
  | resolveDevice
  | drawToDevice
  | flushDevice
deriving DecidableEq, Repr

/-- Whether an effect is free of device work (logging and channel sends are;
resolving, drawing and flushing are not). -/
def nonDeviceEffect : CallbackEffect → Bool
  | .log => true
  | .channelSend _ => true
  | .resolveDevice => false
  | .drawToDevice => false
  | .flushDevice => false

/-- The messages a callback posts on the channel, in order. -/
def channelSends (l : List CallbackEffect) : List Message :=
  l.filterMap fun e =>
    match e with
    | .channelSend m => some m
    | _ => none

/-- Effects of `KeyboardWatcher::device_arrived` in src/manager.rs:131-136:
a debug log, one channel send of `DeviceArrived`, and an error log if the
send failed (`sendResult` is the channel send outcome). -/
def KeyboardWatcher_device_arrived (sendResult : Except String Unit) : List CallbackEffect :=
  CallbackEffect.log :: CallbackEffect.channelSend Message.DeviceArrived ::
    (match sendResult with
      | .error _ => [CallbackEffect.log]
      | .ok _ => [])

/-- Effects of `KeyboardWatcher::device_left` in src/manager.rs:139-144:
a debug log, one channel send of `DeviceLeft`, and an error log if the send
failed. -/
def KeyboardWatcher_device_left (sendResult : Except String Unit) : List CallbackEffect :=
  CallbackEffect.log :: CallbackEffect.channelSend Message.DeviceLeft ::
    (match sendResult with
      | .error _ => [CallbackEffect.log]
      | .ok _ => [])

/-- Effects of the `device_arrived` of src/main.rs:74-100: a log, then the
inline `inner` closure — resolving a fresh `KeyboardDevice` (device
enumeration and descriptor reads), drawing the hostname text into it, and
`flush_screen` (a USB control transfer) — with any error logged at the end.
The three `Except` parameters are the outcomes of those three steps. -/
def MainWatcher_device_arrived (newResult drawResult flushResult : Except String Unit) :
    List CallbackEffect :=
  CallbackEffect.log ::
    (CallbackEffect.resolveDevice ::
      (match newResult with
        | .error _ => [CallbackEffect.log]
        | .ok _ =>
            CallbackEffect.drawToDevice ::
              (match drawResult with
                | .error _ => [CallbackEffect.log]
                | .ok _ =>
                    CallbackEffect.flushDevice ::
                      (match flushResult with
                        | .error _ => [CallbackEffect.log]
                        | .ok _ => []))))

/-- Effects of the `device_left` of src/main.rs:102-105: it only logs; it
posts nothing on any channel. -/
def MainWatcher_device_left : List CallbackEffect :=
  [CallbackEffect.log]

/-- Mirror of `KeyboardInfo` as used by src/main.rs and src/manager.rs: the
target vendor and product identifiers. -/
structure KeyboardInfo where
  vendor_id : Nat
  product_id : Nat
deriving DecidableEq, Repr

/-- The Apex Pro TKL constants (src/keyboard.rs:187-189 and src/main.rs:34-38):
vendor `0x1038`, product `0x1614`. -/
def apexInfo : KeyboardInfo :=
  { vendor_id := 0x1038, product_id := 0x1614 }

/-- Argument triple of `rusb::Context::register_callback`, whose parameter
order is `(vendor_id, product_id, class)`. -/
structure HotplugFilter where
  vendorFilter : Option Nat
  productFilter : Option Nat
  classFilter : Option Nat
deriving DecidableEq, Repr

/-- The filter passed by `KeyboardManager::new` (src/manager.rs:56-63):
`register_callback(Some(keyboard_info.vendor_id), Some(keyboard_info.product_id), None, ...)`. -/
def manager_hotplug_filter (info : KeyboardInfo) : HotplugFilter :=
  { vendorFilter := some info.vendor_id
    productFilter := some info.product_id
    classFilter := none }

/-- The filter passed by `main` (src/main.rs:54-59):
`register_callback(Some(keyboard_info.product_id), Some(keyboard_info.vendor_id), None, ...)` —
note the first argument is the product identifier. -/
def main_hotplug_filter (info : KeyboardInfo) : HotplugFilter :=
  { vendorFilter := some info.product_id
    productFilter := some info.vendor_id
    classFilter := none }

/-! ### Claim C1 -/

/-- Claim C1, counterexample.  On a device whose `screen_dirty` flag is
`false`, an in-range `set_pixel (0,0,true)` on a 2×2 buffer succeeds and sets
the bit at linear index `0 + 0*2`, but leaves `screen_dirty` equal to
`false` — `draw_pixel` never assigns the dirty flag, so the claim's
"the dirty flag is true afterward; set_pixel marks the buffer dirty on every
in-range write" is false at this input. -/
theorem C1_dirty_flag_counterexample :
    draw_pixel 2 2 ⟨[false, false, false, false], false⟩ 0 0 BinColor.on =
      .ok ⟨[true, false, false, false], false⟩ := by
  rfl

/-- Claim C1 (amended): for every in-range coordinate, after
`set_pixel (x, y, true)` the frame-buffer bit at linear index `x + y*width`
reads as set, and the dirty flag is left exactly as it was — `draw_pixel`
does not mark the buffer dirty (the flag is true afterward only when it was
already true, as on a freshly constructed handle). -/
theorem C1_draw_pixel_sets_bit_dirty_unchanged (width height : Nat) (s : DeviceState)
    (x y : Int) (hx : 0 ≤ x) (hy : 0 ≤ y)
    (hxw : x < (width : Int)) (hyh : y < (height : Int))
    (hlen : s.frameBuffer.length = width * height) :
    draw_pixel width height s x y .on =
      .ok ⟨s.frameBuffer.set (x.toNat + y.toNat * width) true, s.screenDirty⟩ ∧
    (s.frameBuffer.set (x.toNat + y.toNat * width) true).get?
      (x.toNat + y.toNat * width) = some true := by
  have hxn : x.toNat < width := by omega
  have hyn : y.toNat < height := by omega
  have hp : x.toNat + y.toNat * width < s.frameBuffer.length := by
    rw [hlen]
    calc x.toNat + y.toNat * width < width + y.toNat * width := by omega
      _ = (y.toNat + 1) * width := by ring
      _ ≤ height * width := Nat.mul_le_mul_right width (by omega)
      _ = width * height := Nat.mul_comm _ _
  constructor
  · unfold draw_pixel
    rw [if_neg (by omega), if_neg (by omega), if_pos hp]
    rfl
  · exact List.get?_set_eq_of_lt true hp

/-- Claim C1 witness: the amended theorem applied to a 2×2 device with a set
dirty flag at in-range coordinate (1,1). -/
theorem C1_draw_pixel_sets_bit_dirty_unchanged_witness :
    draw_pixel 2 2 ⟨[false, false, false, false], true⟩ 1 1 BinColor.on =
      .ok ⟨(DeviceState.mk [false, false, false, false] true).frameBuffer.set
            ((1 : Int).toNat + (1 : Int).toNat * 2) true,
          (DeviceState.mk [false, false, false, false] true).screenDirty⟩ ∧
    ((DeviceState.mk [false, false, false, false] true).frameBuffer.set
        ((1 : Int).toNat + (1 : Int).toNat * 2) true).get?
      ((1 : Int).toNat + (1 : Int).toNat * 2) = some true :=
  C1_draw_pixel_sets_bit_dirty_unchanged 2 2 ⟨[false, false, false, false], true⟩ 1 1
    (by decide) (by decide) (by decide) (by decide) (by decide)

/-! ### Claim C2 -/

/-- Claim C2: for every out-of-range coordinate (negative, or at/beyond a
dimension), `set_pixel` returns success and has no side effect at all — the
returned state is the input state (frame buffer and dirty flag unchanged),
and no error is raised. -/
theorem C2_draw_pixel_out_of_range_no_op (width height : Nat) (s : DeviceState)
    (x y : Int) (c : BinColor)
    (h : x < 0 ∨ y < 0 ∨ (width : Int) ≤ x ∨ (height : Int) ≤ y) :
    draw_pixel width height s x y c = .ok s := by
  unfold draw_pixel
  rcases h with h | h | h | h
  · rw [if_pos (Or.inl h)]
  · rw [if_pos (Or.inr h)]
  · by_cases hx : x < 0 ∨ y < 0
    · rw [if_pos hx]
    · rw [if_neg hx, if_pos (by omega)]
  · by_cases hx : x < 0 ∨ y < 0
    · rw [if_pos hx]
    · rw [if_neg hx, if_pos (by omega)]

/-- Claim C2 witness: a negative x-coordinate on a 128×40 device is a no-op. -/
theorem C2_draw_pixel_out_of_range_no_op_witness :
    draw_pixel 128 40 ⟨[true, false], false⟩ (-1) 7 BinColor.on =
      .ok ⟨[true, false], false⟩ :=
  C2_draw_pixel_out_of_range_no_op 128 40 ⟨[true, false], false⟩ (-1) 7 BinColor.on
    (by decide)

/-! ### Claim C3 -/

/-- Claim C3: flush is idempotent with respect to transmission.  On a dirty
device a successful flush transmits the frame buffer once and clears the
dirty flag; a second flush without intervening writes transmits nothing
(whatever the transport would do) and succeeds; and when the send fails the
error is returned, the state is unchanged, and the dirty flag stays set. -/
theorem C3_flush_idempotent (s : DeviceState) (e : String) (h : s.screenDirty = true) :
    flush_screen (.ok ()) s = ({ s with screenDirty := false }, some s.frameBuffer, .ok ()) ∧
    (∀ r : Except String Unit,
      flush_screen r { s with screenDirty := false } =
        ({ s with screenDirty := false }, none, .ok ())) ∧
    flush_screen (.error e) s = (s, some s.frameBuffer, .error e) := by
  refine ⟨?_, fun r => ?_, ?_⟩
  · simp [flush_screen, h]
  · simp [flush_screen]
  · simp [flush_screen, h]

/-- Claim C3 witness: the theorem applied to a concrete dirty one-pixel
device and a concrete transport error. -/
theorem C3_flush_idempotent_witness :
    flush_screen (.ok ()) ⟨[true], true⟩ =
      ({ DeviceState.mk [true] true with screenDirty := false },
        some (DeviceState.mk [true] true).frameBuffer, .ok ()) ∧
    (∀ r : Except String Unit,
      flush_screen r { DeviceState.mk [true] true with screenDirty := false } =
        ({ DeviceState.mk [true] true with screenDirty := false }, none, .ok ())) ∧
    flush_screen (.error "transport failure") ⟨[true], true⟩ =
      (⟨[true], true⟩, some (DeviceState.mk [true] true).frameBuffer,
        .error "transport failure") :=
  C3_flush_idempotent ⟨[true], true⟩ "transport failure" rfl

/-! ### Claim C10 -/

/-- Claim C10: a freshly constructed device handle has a frame buffer of
exactly `width*height` bits, all cleared, and its dirty flag already `true`;
consequently the first flush after construction performs a transmission of
the all-zero image even though no pixel was ever written. -/
theorem C10_fresh_device_first_flush (width height : Nat) :
    (KeyboardDevice_fresh width height).frameBuffer =
      List.replicate (width * height) false ∧
    (KeyboardDevice_fresh width height).frameBuffer.length = width * height ∧
    (KeyboardDevice_fresh width height).screenDirty = true ∧
    flush_screen (.ok ()) (KeyboardDevice_fresh width height) =
      ({ KeyboardDevice_fresh width height with screenDirty := false },
        some (List.replicate (width * height) false), .ok ()) := by
  refine ⟨rfl, by simp [KeyboardDevice_fresh, screen_area], rfl, ?_⟩
  simp [flush_screen, KeyboardDevice_fresh, screen_area]

/-! ### Claim C4 -/

/-- Claim C4, counterexample.  For the one-bit buffer `[true]` the code packs
the data bit into the most significant position of the final byte and
zero-pads the LOW end, producing payload `[0x65, 0x80]`; the spec's
"final byte high-end zero-padded" encoding would produce `[0x65, 0x01]`.
The two differ, so the claim's description of the padding is false. -/
theorem C4_padding_counterexample :
    encodeImage [true] = [0x65, 0x80] ∧
    encodeImageHighPad [true] = [0x65, 0x01] ∧
    encodeImage [true] ≠ encodeImageHighPad [true] := by
  refine ⟨rfl, rfl, ?_⟩
  decide

/-- Claim C4 (amended): the encoded image payload is the command-tag byte
`0x65` followed by the buffer's bits packed most-significant-bit first into
bytes, the final byte zero-padded on the LOW end when the bit count is not a
multiple of 8; stripping the first byte and unpacking the remaining bits
most-significant-bit first reproduces the original buffer bit-for-bit (the
padding bits being the trailing ones); and for a 128×40 buffer the payload
is exactly `1 + 128*40/8 = 641` bytes. -/
theorem C4_encode_image_roundtrip (bs : List Bool) :
    encodeImage bs = 0x65 :: packBits bs ∧
    (encodeImage bs).length = 1 + (bs.length + 7) / 8 ∧
    (unpackBits ((encodeImage bs).drop 1)).take bs.length = bs ∧
    (bs.length = 128 * 40 → (encodeImage bs).length = 641) := by
  have h1 : encodeImage bs = 0x65 :: packBits bs := packBits_cmd_cons bs
  have h2 : (encodeImage bs).length = 1 + (bs.length + 7) / 8 := by
    rw [h1]
    simp [packBits_length]
    omega
  refine ⟨h1, h2, ?_, ?_⟩
  · rw [h1]
    show (unpackBits (packBits bs)).take bs.length = bs
    rw [unpackBits_packBits]
    conv_lhs => rw [show bs.length = bs.length by rfl]
    exact List.take_left bs _
  · intro hl
    rw [h2, hl]

/-- Claim C4 witness: the theorem applied to the all-zero 128×40 frame
buffer, discharging the length hypothesis of the final conjunct. -/
theorem C4_encode_image_roundtrip_witness :
    (List.replicate (128 * 40) false).length = 128 * 40 ∧
    (encodeImage (List.replicate (128 * 40) false)).length = 641 :=
  ⟨List.length_replicate _ _,
    (C4_encode_image_roundtrip (List.replicate (128 * 40) false)).2.2.2
      (List.length_replicate _ _)⟩

/-! ### Claim C5 -/

/-- Claim C5: every image send issues exactly one control transfer, with
request-type byte `0x21` (assembled from host-to-device direction, class
kind, interface recipient), request code `0x09`, value `0x0300`, index
`0x0001` for the OLED image command, the payload, and a 5-second timeout;
and, for a reported write count not exceeding the payload length, the send
succeeds exactly when the full payload length was written — a short write
returns an error. -/
theorem C5_send_wire_format (buf : List Nat) (wr : Except String Nat) (written : Nat)
    (hw : written ≤ buf.length) :
    (send .Oled buf wr).1 =
      [{ requestType := 0x21, request := 0x09, value := 0x0300, index := 0x0001,
         payload := buf, timeoutSecs := 5 }] ∧
    request_type .out .classKind .interface = 0x21 ∧
    KeyboardCommand.Oled.value = 0x0300 ∧
    KeyboardCommand.Oled.index = 0x0001 ∧
    ((send .Oled buf (.ok written)).2 = .ok () ↔ written = buf.length) := by
  refine ⟨?_, rfl, rfl, rfl, ?_⟩
  · cases wr <;> rfl
  · show (if buf.length - written = 0 then (Except.ok () : Except String Unit)
        else .error "entire request not written") = .ok () ↔ written = buf.length
    constructor
    · intro h
      by_cases h0 : buf.length - written = 0
      · omega
      · rw [if_neg h0] at h
        exact absurd h (by simp)
    · intro h
      rw [if_pos (by omega)]

/-- Claim C5 witness: a two-byte payload fully written succeeds; the wire
fields are the image-command constants. -/
theorem C5_send_wire_format_witness :
    (send .Oled [0x65, 0x00] (.ok 2)).1 =
      [{ requestType := 0x21, request := 0x09, value := 0x0300, index := 0x0001,
         payload := [0x65, 0x00], timeoutSecs := 5 }] ∧
    request_type .out .classKind .interface = 0x21 ∧
    KeyboardCommand.Oled.value = 0x0300 ∧
    KeyboardCommand.Oled.index = 0x0001 ∧
    ((send .Oled [0x65, 0x00] (.ok 2)).2 = .ok () ↔ 2 = ([0x65, 0x00] : List Nat).length) :=
  C5_send_wire_format [0x65, 0x00] (.ok 2) 2 (by decide)

/-! ### Claim C6 -/

theorem findKeyboard_skip (vid pid : Nat) (d : UsbDevice) (rest : List UsbDevice)
    (h : selectedBy vid pid d = false) :
    findKeyboard vid pid (d :: rest) = findKeyboard vid pid rest := by
  simp [findKeyboard, h]

theorem findKeyboard_hit (vid pid : Nat) (d : UsbDevice) (rest : List UsbDevice)
    (h : selectedBy vid pid d = true) :
    findKeyboard vid pid (d :: rest) = some d := by
  simp [findKeyboard, h]

theorem findKeyboard_none (vid pid : Nat) (ds : List UsbDevice)
    (h : ∀ d2 ∈ ds, selectedBy vid pid d2 = false) :
    findKeyboard vid pid ds = none := by
  induction ds with
  | nil => rfl
  | cons d rest ih =>
      rw [findKeyboard_skip vid pid d rest (h d (List.mem_cons_self d rest))]
      exact ih fun d2 hm => h d2 (List.mem_cons_of_mem d hm)

/-- Claim C6: resolution over an enumerated device list returns the first
device whose descriptor reads successfully and matches the target
vendor/product pair; devices before it — including ones whose descriptor
read errors — are skipped without aborting; when nothing matches the result
is the `notFound` error; a failure to list devices at all is the separate
`listDevicesError` transport error, and the two are distinguishable. -/
theorem C6_device_resolution (vid pid : Nat) (pre post ds : List UsbDevice)
    (d : UsbDevice) (e : String)
    (h1 : ∀ d2 ∈ pre, selectedBy vid pid d2 = false)
    (h2 : selectedBy vid pid d = true)
    (h3 : ∀ d2 ∈ ds, selectedBy vid pid d2 = false) :
    KeyboardDevice_find vid pid (.ok (pre ++ d :: post)) = .ok d ∧
    KeyboardDevice_find vid pid (.ok ds) = .error .notFound ∧
    KeyboardDevice_find vid pid (.error e) = .error (.listDevicesError e) ∧
    ResolveError.notFound ≠ ResolveError.listDevicesError e := by
  have hfind : findKeyboard vid pid (pre ++ d :: post) = some d := by
    induction pre with
    | nil => exact findKeyboard_hit vid pid d post h2
    | cons p rest ih =>
        rw [List.cons_append,
          findKeyboard_skip vid pid p _ (h1 p (List.mem_cons_self p rest))]
        exact ih fun d2 hm => h1 d2 (List.mem_cons_of_mem p hm)
  refine ⟨?_, ?_, rfl, by simp⟩
  · simp [KeyboardDevice_find, hfind]
  · simp [KeyboardDevice_find, findKeyboard_none vid pid ds h3]

/-- Claim C6 witness: a device whose descriptor read errors, followed by the
Apex Pro TKL (vendor `0x1038`, product `0x1614`), resolves to the latter; a
list holding only a wrong-vendor device resolves to `notFound`; a failed
enumeration is the distinguishable transport error. -/
theorem C6_device_resolution_witness :
    KeyboardDevice_find 0x1038 0x1614
        (.ok ([⟨0, .error "descriptor read failed"⟩] ++
          ⟨1, .ok ⟨0x1038, 0x1614⟩⟩ :: [])) = .ok ⟨1, .ok ⟨0x1038, 0x1614⟩⟩ ∧
    KeyboardDevice_find 0x1038 0x1614 (.ok [⟨2, .ok ⟨0x1234, 0x1614⟩⟩]) =
      .error .notFound ∧
    KeyboardDevice_find 0x1038 0x1614 (.error "usb context failure") =
      .error (.listDevicesError "usb context failure") ∧
    ResolveError.notFound ≠ ResolveError.listDevicesError "usb context failure" :=
  C6_device_resolution 0x1038 0x1614 [⟨0, .error "descriptor read failed"⟩] []
    [⟨2, .ok ⟨0x1234, 0x1614⟩⟩] ⟨1, .ok ⟨0x1038, 0x1614⟩⟩ "usb context failure"
    (by decide) (by decide) (by decide)

/-! ### Claim C7 -/

/-- Whether a message's `handle_message` arm calls `draw_screen`
(`DeviceArrived` and `RefreshScreen` do, `DeviceLeft` does not). -/
def triggers : Message → Bool
  | .DeviceArrived => true
  | .DeviceLeft => false
  | .RefreshScreen => true

theorem message_result_fst (d : Except String Unit) (m : Message) :
    (message_result d m).1 = triggers m := by
  cases m <;> rfl

theorem redraws_append (a b : List WorkerAction) :
    redraws (a ++ b) = redraws a ++ redraws b :=
  List.filterMap_append a b _

theorem redraws_handle (d : Except String Unit) (k : Nat) (m : Message) :
    redraws (handle_message d k m).1 = if triggers m then [k] else [] := by
  cases m <;> cases d <;> rfl

theorem worker_loop_cons_ok (m : Message) (rest : List (Except String Message))
    (draws : Nat → Except String Unit) (k : Nat) :
    worker_loop (.ok m :: rest) draws k =
      (handle_message (draws k) k m).1 ++
        worker_loop rest draws (if triggers m then k + 1 else k) := by
  show (handle_message (draws k) k m).1 ++
      worker_loop rest draws (if (message_result (draws k) m).1 then k + 1 else k) = _
  rw [message_result_fst]

theorem worker_loop_ok_append (msgs : List Message)
    (tail : List (Except String Message)) (draws : Nat → Except String Unit) (k : Nat) :
    worker_loop (msgs.map .ok ++ tail) draws k =
      worker_loop (msgs.map .ok) draws k ++
        worker_loop tail draws (k + (msgs.filter triggers).length) := by
  induction msgs generalizing k with
  | nil => simp [worker_loop]
  | cons m rest ih =>
      rw [List.map_cons, List.cons_append, worker_loop_cons_ok, worker_loop_cons_ok, ih,
        List.append_assoc]
      cases hm : triggers m
      · simp [List.filter_cons, hm]
      · simp only [if_true, List.filter_cons, hm, List.length_cons]
        rw [show k + 1 + (rest.filter triggers).length =
          k + ((rest.filter triggers).length + 1) by omega]

/-- Claim C7: the worker processes messages in receive order; the loop stops
exactly at the first failed receive (logging it and breaking, never touching
later entries); over successfully received messages, each `DeviceArrived`
and each `RefreshScreen` yields exactly one redraw attempt and `DeviceLeft`
yields none; the concrete sequence `RefreshScreen, DeviceLeft, RefreshScreen`
yields exactly two redraw attempts in that order whatever each redraw's
outcome; and a failed redraw is logged while the message still counts as
handled. -/
theorem C7_worker_message_loop (msgs : List Message) (e : String)
    (rest : List (Except String Message)) (draws : Nat → Except String Unit) (k : Nat) :
    worker_loop (msgs.map .ok ++ .error e :: rest) draws k =
      worker_loop (msgs.map .ok) draws k ++ [WorkerAction.logRecvErrorAndBreak] ∧
    (redraws (worker_loop (msgs.map .ok) draws k)).length =
      (msgs.filter triggers).length ∧
    redraws (worker_loop
        [.ok .RefreshScreen, .ok .DeviceLeft, .ok .RefreshScreen] draws k) = [k, k + 1] ∧
    (∀ er : String, handle_message (.error er) k .RefreshScreen =
      ([WorkerAction.redraw k, WorkerAction.logHandleError], true)) ∧
    handle_message (draws k) k .DeviceLeft = ([], false) := by
  refine ⟨?_, ?_, ?_, fun er => rfl, ?_⟩
  · rw [worker_loop_ok_append]
    rfl
  · induction msgs generalizing k with
    | nil => rfl
    | cons m rest2 ih =>
        rw [List.map_cons, worker_loop_cons_ok, redraws_append, redraws_handle,
          List.filter_cons]
        cases hm : triggers m
        · simpa using ih (if false then k + 1 else k)
        · simp only [List.length_append, List.length_cons]
          have := ih (if true then k + 1 else k)
          simp at this ⊢
          omega
  · rw [worker_loop_cons_ok, worker_loop_cons_ok, worker_loop_cons_ok,
      redraws_append, redraws_append, redraws_append, redraws_handle, redraws_handle,
      redraws_handle]
    rfl
  · cases hd : draws k <;> rfl

/-! ### Claim C8 -/

/-- Claim C8 (as a statement about the code): the manager's hotplug watcher
(src/manager.rs) performs no device work in either callback — each invocation
only logs and posts exactly its one message (`DeviceArrived` or
`DeviceLeft`), whatever the channel-send outcome.  The older watcher of
src/main.rs violates this: on every arrival, whatever the step outcomes, it
performs device work inside the callback (resolving the device, and on
success drawing and flushing, i.e. a USB control transfer) and posts no
message at all; its `device_left` merely logs. -/
theorem C8_callback_effects (r a b c : Except String Unit) :
    (KeyboardWatcher_device_arrived r).all nonDeviceEffect = true ∧
    (KeyboardWatcher_device_left r).all nonDeviceEffect = true ∧
    channelSends (KeyboardWatcher_device_arrived r) = [Message.DeviceArrived] ∧
    channelSends (KeyboardWatcher_device_left r) = [Message.DeviceLeft] ∧
    (MainWatcher_device_arrived a b c).all nonDeviceEffect = false ∧
    channelSends (MainWatcher_device_arrived a b c) = [] ∧
    MainWatcher_device_arrived (.ok ()) (.ok ()) (.ok ()) =
      [CallbackEffect.log, CallbackEffect.resolveDevice, CallbackEffect.drawToDevice,
        CallbackEffect.flushDevice] ∧
    MainWatcher_device_left = [CallbackEffect.log] := by
  cases r <;> cases a <;> cases b <;> cases c <;>
    exact ⟨rfl, rfl, rfl, rfl, rfl, rfl, rfl, rfl⟩

/-! ### Claim C9 -/

/-- Claim C9 (as a statement about the code): the registration in
src/manager.rs passes the vendor identifier as the vendor filter and the
product identifier as the product filter with no class filter, but the
registration in src/main.rs passes them swapped — its vendor filter is the
product identifier `0x1614` and its product filter is the vendor identifier
`0x1038` — so not every registration filters by the intended pair. -/
theorem C9_registration_filters :
    manager_hotplug_filter apexInfo =
      { vendorFilter := some 0x1038, productFilter := some 0x1614, classFilter := none } ∧
    main_hotplug_filter apexInfo =
      { vendorFilter := some 0x1614, productFilter := some 0x1038, classFilter := none } ∧
    (main_hotplug_filter apexInfo).vendorFilter ≠ some apexInfo.vendor_id ∧
    (main_hotplug_filter apexInfo).productFilter ≠ some apexInfo.product_id := by
  refine ⟨rfl, rfl, ?_, ?_⟩ <;> decide
